import Mathlib

/-!
Verification development for the astro chart / dasha engine.

The repository ships the backend design document (src/backend/README.md)
together with the frontend sources. The backend calculation engine
(app/services/calc_engine) is not part of the checked-in tree, so the
calculation-level definitions below are modelled from the specification
text; the profile-form definitions are translated from
src/frontend/src/pages/NewProfile.tsx.

Longitudes and instants are exact rationals, so the tiling and boundary
statements are exact, as the specification demands.
-/

/-- The 9 tracked bodies (spec section 3, BodyPosition). -/
inductive Body
  | Sun
  | Moon
  | Mars
  | Mercury
  | Jupiter
  | Venus
  | Saturn
  | Rahu
  | Ketu
deriving DecidableEq, Repr, Inhabited

/-- Modelled from the spec: the fixed Vimshottari per-lord durations
(unit-years 7/20/6/10/7/18/16/19/17 in the fixed lord order), spec
section 4.4; the backend calc engine holding this table is missing from
the tree. -/
def seqDurs : List ℚ := [7, 20, 6, 10, 7, 18, 16, 19, 17]

/-- Modelled from the spec: duration of the lord at position `i` of the
fixed sequence, indexed cyclically mod 9 (spec section 4.4). -/
def seqDur (i : ℕ) : ℚ := seqDurs.getD (i % 9) 0

/-- Modelled from the spec: cumulative duration of the first `j` lords of
the fixed sequence starting at sequence position `l` (spec section 4.4). -/
def cumDur (l : ℕ) : ℕ → ℚ
  | 0 => 0
  | j + 1 => cumDur l j + seqDur (l + j)

/-- Modelled from the spec: a planetary-period tree node (spec section 3,
PeriodNode); `lord` is the position in the fixed sequence, `stop` is the
exclusive end instant. -/
structure PeriodNode where
  lord : ℕ
  start : ℚ
  stop : ℚ
  depth : ℕ
deriving DecidableEq, Repr, Inhabited

/-- Modelled from the spec: the `j`-th child of a span starting at `s`
with total duration `D` and first lord at sequence position `l`: lords
proceed in the fixed sequence starting from `l` and wrapping, each with
duration `D * (lord duration / 120)`, laid contiguously
(spec section 4.4, recursive subdivision). -/
def subChild (s D : ℚ) (l dep : ℕ) (j : ℕ) : PeriodNode :=
  { lord := (l + j) % 9
    start := s + D * cumDur l j / 120
    stop := s + D * cumDur l (j + 1) / 120
    depth := dep }

/-- Modelled from the spec: the ordered 9 children subdividing the span
`[s, s + D)` whose first lord is at sequence position `l`
(spec section 4.4). -/
def subdivide (s D : ℚ) (l dep : ℕ) : List PeriodNode :=
  (List.range 9).map (subChild s D l dep)

/-- Modelled from the spec: children of a PeriodNode subdivide its own
span `[start, stop)` starting from its own lord (spec section 4.4). -/
def subdivideNode (n : PeriodNode) : List PeriodNode :=
  subdivide n.start (n.stop - n.start) n.lord (n.depth + 1)

/-- Total duration covered by a list of period nodes. -/
def durTotal (ns : List PeriodNode) : ℚ := (ns.map (fun n => n.stop - n.start)).sum

/-- Consecutive nodes are contiguous: each node ends where the next starts. -/
def Contiguous (ns : List PeriodNode) : Prop :=
  ∀ i : ℕ, i + 1 < ns.length → (ns.getD i default).stop = (ns.getD (i + 1) default).start

/-- Ordered non-overlap: an earlier node ends no later than a later node starts. -/
def NoOverlap (ns : List PeriodNode) : Prop :=
  ∀ i j : ℕ, i < j → j < ns.length → (ns.getD i default).stop ≤ (ns.getD j default).start

/-- Modelled from the spec: the nakshatra span, 13 degrees 20 minutes
(spec section 4.1). -/
def nakshatraSpan : ℚ := 40 / 3

/-- Modelled from the spec: index (0..26) of the nakshatra holding a
longitude, closed-open segments (spec section 4.1). -/
def nakshatraIndex (lon : ℚ) : ℤ := ⌊lon / nakshatraSpan⌋

/-- Modelled from the spec: sequence position of the lord pre-assigned to
the birth nakshatra, `nakshatra_index mod 9` (spec section 4.4). -/
def nakshatraLord (lon : ℚ) : ℕ := (nakshatraIndex lon).toNat % 9

/-- Modelled from the spec: elapsed fraction of the birth nakshatra arc,
(longitude minus nakshatra start) / nakshatra span (spec section 4.4). -/
def elapsedFraction (lon : ℚ) : ℚ :=
  (lon - nakshatraIndex lon * nakshatraSpan) / nakshatraSpan

/-- Modelled from the spec: the anchor of the depth-0 cycle, the birth
instant minus the elapsed fraction of the starting lord duration (spec
section 4.4, cycle start and balance). -/
def dashaCycleStart (birth lon : ℚ) : ℚ :=
  birth - elapsedFraction lon * seqDur (nakshatraLord lon)

/-- Modelled from the spec: the full depth-0 (Mahadasha) sequence for a
birth instant and birth Moon longitude (spec section 4.4). -/
def depth0Sequence (birth lon : ℚ) : List PeriodNode :=
  subdivide (dashaCycleStart birth lon) 120 (nakshatraLord lon) 0

/-- Modelled from the spec: an upcoming-window entry, a depth-1 lord with
its reported (possibly truncated) start and end (spec section 4.4,
upcoming windows query). -/
structure UpWindow where
  lord : ℕ
  start : ℚ
  stop : ℚ
deriving DecidableEq, Repr, Inhabited

/-- Modelled from the spec: the upcoming-windows query over depth-1 nodes
(spec section 4.4); `cur` is the depth-1 node containing `now`, `next`
its successor. The current node is always included with its end truncated
to `now + months`; the next node is included exactly when it starts before
`now + months`, also truncated. The backend calc engine holding this
query is missing from the tree. -/
def upcomingWindows (cur next : PeriodNode) (now months : ℚ) : List UpWindow :=
  let horizon := now + months
  { lord := cur.lord, start := cur.start, stop := min cur.stop horizon } ::
    (if next.start < horizon then
      [{ lord := next.lord, start := next.start, stop := min next.stop horizon }]
    else [])

/-- Modelled from the spec: normalization of a degree value into [0, 360)
(spec section 4.1). -/
def normalizeDegrees (x : ℚ) : ℚ := x - 360 * ⌊x / 360⌋

/-- Modelled from the spec: zodiac sign index of a longitude,
`floor(longitude / 30)` over the normalized longitude, 0 = Aries ..
11 = Pisces (spec section 4.1). -/
def signOf (lon : ℚ) : ℕ := (⌊normalizeDegrees lon / 30⌋).toNat

/-- Modelled from the spec: whole-sign house of a body sign relative to
the ascendant sign, `((sign_index(body) - sign_index(asc) + 12) mod 12) + 1`
(spec section 3, Chart invariant; written over ℕ). -/
def houseOf (bodySign ascSign : ℕ) : ℕ := (bodySign + 12 - ascSign % 12) % 12 + 1

/-- Modelled from the spec: the chart data the house mapping needs — the
ascendant longitude and one longitude per tracked body (spec section 3,
Chart). -/
structure Chart where
  asc : ℚ
  bodyLon : Body → ℚ

/-- Modelled from the spec: the house assigned to a body in a chart
(spec section 3, Chart). -/
def chartHouse (c : Chart) (b : Body) : ℕ :=
  houseOf (signOf (c.bodyLon b)) (signOf c.asc)

/-- Clamp a score into [0, 1]. -/
def clamp01 (x : ℚ) : ℚ := max 0 (min 1 x)

/-- Modelled from the spec: +0.15 when the house lord has dignity tier at
least Friend (tier 2) and is not combust (spec section 4.5, Bhava Bala). -/
def lordStrongBonus (tier : ℤ) (combust : Bool) : ℚ :=
  if 2 ≤ tier ∧ combust = false then 15 / 100 else 0

/-- Modelled from the spec: +0.10 when the house lord receives any Jupiter
or Venus aspect edge (spec section 4.5, Bhava Bala). -/
def beneficAspectBonus (asp : Bool) : ℚ := if asp then 1 / 10 else 0

/-- Modelled from the spec: -0.10 when the house lord has dignity tier at
most Enemy (tier 0) or is combust (spec section 4.5, Bhava Bala). -/
def lordWeakPenalty (tier : ℤ) (combust : Bool) : ℚ :=
  if tier ≤ 0 ∨ combust = true then -(1 / 10) else 0

/-- Modelled from the spec: -0.10 when 3 or more of Mars, Saturn, Rahu and
Ketu occupy the house (spec section 4.5, Bhava Bala). -/
def maleficPenalty (maleficCount : ℕ) : ℚ := if 3 ≤ maleficCount then -(1 / 10) else 0

/-- Modelled from the spec: the Bhava Bala house score, 0.50 plus the four
independently evaluated adjustments, clamped to [0, 1] (spec section 4.5;
the backend calc engine holding this rule is missing from the tree). -/
def bhavaBala (tier : ℤ) (combust asp : Bool) (maleficCount : ℕ) : ℚ :=
  clamp01 (1 / 2 + lordStrongBonus tier combust + beneficAspectBonus asp +
    lordWeakPenalty tier combust + maleficPenalty maleficCount)

/-- Modelled from the spec: the per-body combustion orb table — Mercury
12, Venus 10, Mars 17, Jupiter 11, Saturn 15, Moon 12; the other bodies
have no orb and are never combust (spec section 3, Dignity). -/
def combustOrb : Body → Option ℚ
  | .Mercury => some 12
  | .Venus => some 10
  | .Mars => some 17
  | .Jupiter => some 11
  | .Saturn => some 15
  | .Moon => some 12
  | _ => none

/-- Modelled from the spec: circular angular distance between two
longitudes, `min(d, 360 - d)` for the normalized difference `d`
(spec section 3, Dignity). -/
def angularDistance (a b : ℚ) : ℚ :=
  min (normalizeDegrees (a - b)) (360 - normalizeDegrees (a - b))

/-- Modelled from the spec: the combustion flag as a function of the
angular distance to the Sun (spec section 3, Dignity). -/
def combustAt (b : Body) (dist : ℚ) : Bool :=
  match combustOrb b with
  | some orb => decide (dist ≤ orb)
  | none => false

/-- Modelled from the spec: a body is combust when its circular angular
distance to the Sun is within its orb (spec section 3, Dignity; the
backend calc engine holding this test is missing from the tree). -/
def isCombust (b : Body) (lon sunLon : ℚ) : Bool :=
  combustAt b (angularDistance lon sunLon)

/-- Modelled from the spec: the cyclic-affliction phase labels
(spec section 3, TransitSnapshot). -/
inductive SadePhase
  | none
  | rising
  | peak
  | setting
deriving DecidableEq, Repr, Inhabited

/-- Modelled from the spec: the cyclic-affliction phase as a function of
Saturn's house-offset from the natal Moon sign: 12 is rising, 1 is peak,
2 is setting, anything else is none (spec section 4.5; the backend calc
engine holding this detector is missing from the tree). -/
def sadeSatiPhase (offset : ℕ) : SadePhase :=
  if offset = 12 then .rising
  else if offset = 1 then .peak
  else if offset = 2 then .setting
  else .none

/-- Modelled from the spec: a transit snapshot records, for each of
Saturn, Jupiter, Rahu and Ketu, the house-offset from the natal ascendant
and from the natal Moon sign (spec section 3, TransitSnapshot). -/
structure TransitSnapshot where
  saturnFromMoon : ℕ
  jupiterFromMoon : ℕ
  rahuFromMoon : ℕ
  ketuFromMoon : ℕ
  saturnFromLagna : ℕ
  jupiterFromLagna : ℕ
  rahuFromLagna : ℕ
  ketuFromLagna : ℕ
deriving DecidableEq, Repr

/-- The cyclic-affliction phase reported for a transit snapshot. -/
def snapshotPhase (t : TransitSnapshot) : SadePhase := sadeSatiPhase t.saturnFromMoon

/-- Modelled from the spec: the outcome of one full pipeline run that the
sensitivity diff compares — ascendant sign, Moon sign, harmonic ascendant
sign and the current depth-0 and depth-1 lords (spec section 4.7). -/
structure PipelineResult where
  lagnaSign : ℕ
  moonSign : ℕ
  d9AscSign : ℕ
  currentMD : ℕ
  currentAD : ℕ
deriving DecidableEq, Repr

/-- Modelled from the spec: the sensitivity report fields (spec
section 4.7 and backend README section 3.10). -/
structure SensitivityReport where
  uncertaintyMinutes : ℚ
  lagnaFlips : Bool
  moonSignFlips : Bool
  d9AscFlips : Bool
  dashaBoundaryRisky : Bool
deriving DecidableEq, Repr

/-- Modelled from the spec: the diff of the two perturbed runs against the
baseline (spec section 4.7). -/
def diffReport (u : ℚ) (base minusRun plusRun : PipelineResult) : SensitivityReport :=
  { uncertaintyMinutes := u
    lagnaFlips := decide (minusRun.lagnaSign ≠ base.lagnaSign ∨ plusRun.lagnaSign ≠ base.lagnaSign)
    moonSignFlips := decide (minusRun.moonSign ≠ base.moonSign ∨ plusRun.moonSign ≠ base.moonSign)
    d9AscFlips := decide (minusRun.d9AscSign ≠ base.d9AscSign ∨ plusRun.d9AscSign ≠ base.d9AscSign)
    dashaBoundaryRisky := decide (minusRun.currentMD ≠ plusRun.currentMD ∨
      minusRun.currentAD ≠ plusRun.currentAD) }

/-- Modelled from the spec: the sensitivity analysis gate — it runs only
when the birth-time uncertainty is positive, and if either perturbed
pipeline run failed to build a chart the whole report is omitted (spec
section 4.7; the backend calc engine holding this rule is missing from
the tree). -/
def sensitivityReport (u : ℚ) (base : PipelineResult)
    (minusRun plusRun : Option PipelineResult) : Option SensitivityReport :=
  if u ≤ 0 then none
  else
    match minusRun, plusRun with
    | some m, some p => some (diffReport u base m p)
    | _, _ => none

/-- The profile-form state of src/frontend/src/pages/NewProfile.tsx
(the useState initial object, lines 17-30); every field is the raw string
held by the corresponding input. -/
structure ProfileFormState where
  name : String
  gender : String
  dob : String
  tob : String
  tz : String
  place : String
  lat : String
  lon : String
  altitude_m : String
  uncertainty_minutes : String
  ayanamsa : String
  house_system : String
deriving DecidableEq, Repr

/-- Outcome of a submit attempt in NewProfile.tsx handleSubmit: redirect
to /auth when no token is stored, reject with a toast message, or send
the POST /profiles request with the parsed numeric payload. -/
inductive SubmitOutcome
  | redirectToAuth
  | reject (message : String)
  | send (lat lon altitude : ℚ) (uncertainty : ℤ)
deriving DecidableEq, Repr

/-- `!s.trim()` in JavaScript holds exactly when the string has no
non-whitespace character. -/
def isBlank (s : String) : Bool := s.toList.all Char.isWhitespace

/-- The validation sequence of handleSubmit in
src/frontend/src/pages/NewProfile.tsx (lines 95-168). `latVal`, `lonVal`
and `altVal` are the results of `parseFloat` on the corresponding form
strings and `uncVal` the result of `parseInt` (`none` models NaN); the
checks run in source order and the request is sent only when every check
passes. -/
def handleSubmit (hasToken : Bool) (f : ProfileFormState)
    (latVal lonVal altVal : Option ℚ) (uncVal : Option ℤ) : SubmitOutcome :=
  if hasToken = false then .redirectToAuth
  else if isBlank f.name then .reject "Name is required"
  else if f.dob = "" then .reject "Date of birth is required"
  else if f.tob = "" then .reject "Time of birth is required"
  else if isBlank f.place then .reject "Birth place is required"
  else if f.lat = "" ∨ f.lon = "" then
    .reject "Please wait for coordinates to be loaded or enter them manually"
  else
    match latVal with
    | none => .reject "Invalid latitude. Must be between -90 and 90"
    | some lat =>
      if lat < -90 ∨ 90 < lat then .reject "Invalid latitude. Must be between -90 and 90"
      else
        match lonVal with
        | none => .reject "Invalid longitude. Must be between -180 and 180"
        | some lon =>
          if lon < -180 ∨ 180 < lon then
            .reject "Invalid longitude. Must be between -180 and 180"
          else
            match altVal with
            | none => .reject "Invalid altitude. Must be between -500 and 10000 meters"
            | some alt =>
              if alt < -500 ∨ 10000 < alt then
                .reject "Invalid altitude. Must be between -500 and 10000 meters"
              else
                match uncVal with
                | none => .reject "Invalid uncertainty. Must be between 0 and 10 minutes"
                | some unc =>
                  if unc < 0 ∨ 10 < unc then
                    .reject "Invalid uncertainty. Must be between 0 and 10 minutes"
                  else .send lat lon alt unc

/-- The guard of the debounced geocoding effect in
src/frontend/src/pages/NewProfile.tsx (lines 85-93):
`formData.place && !formData.lat && !formData.lon` — the only falsy
string is the empty one. -/
def geocodeEffectCondition (f : ProfileFormState) : Bool :=
  decide (f.place ≠ "" ∧ f.lat = "" ∧ f.lon = "")

/-- The form-state update a successful geocode performs in geocodeCity,
src/frontend/src/pages/NewProfile.tsx (lines 66-72): spread the previous
state and set only lat and lon. -/
def geocodeSetCoords (f : ProfileFormState) (newLat newLon : String) : ProfileFormState :=
  { f with lat := newLat, lon := newLon }

theorem seqDurs_getD_nonneg (k : ℕ) : 0 ≤ seqDurs.getD k 0 := by
  rcases k with _ | _ | _ | _ | _ | _ | _ | _ | _ | k <;> norm_num [seqDurs]

theorem seqDur_nonneg (n : ℕ) : 0 ≤ seqDur n := seqDurs_getD_nonneg _

theorem seqDur_mod (a : ℕ) : seqDur a = seqDur (a % 9) := by
  unfold seqDur
  have h : a % 9 = a % 9 % 9 := by omega
  rw [← h]

theorem cumDur_mod (l j : ℕ) : cumDur l j = cumDur (l % 9) j := by
  induction j with
  | zero => rfl
  | succ j ih =>
      have h1 : seqDur (l + j) = seqDur (l % 9 + j) := by
        rw [seqDur_mod (l + j), seqDur_mod (l % 9 + j)]
        have : (l + j) % 9 = (l % 9 + j) % 9 := by omega
        rw [this]
      simp [cumDur, ih, h1]

theorem cumDur_cycle (l : ℕ) : cumDur l 9 = 120 := by
  rw [cumDur_mod]
  have h : l % 9 < 9 := Nat.mod_lt _ (by norm_num)
  interval_cases (l % 9) <;> norm_num [cumDur, seqDur, seqDurs]

theorem cumDur_mono (l : ℕ) {i j : ℕ} (h : i ≤ j) : cumDur l i ≤ cumDur l j := by
  induction j with
  | zero => simp [Nat.le_zero.mp h]
  | succ j ih =>
      rcases Nat.lt_or_ge i (j + 1) with hlt | hge
      · calc cumDur l i ≤ cumDur l j := ih (Nat.lt_succ_iff.mp hlt)
          _ ≤ cumDur l j + seqDur (l + j) := by
              have := seqDur_nonneg (l + j)
              linarith
          _ = cumDur l (j + 1) := rfl
      · have : i = j + 1 := le_antisymm h hge
        simp [this]

theorem subdivide_length (s D : ℚ) (l dep : ℕ) : (subdivide s D l dep).length = 9 := by
  simp [subdivide]

theorem subdivide_getD (s D : ℚ) (l dep : ℕ) {i : ℕ} (h : i < 9) :
    (subdivide s D l dep).getD i default = subChild s D l dep i := by
  have hlen : i < (subdivide s D l dep).length := by rw [subdivide_length]; exact h
  rw [List.getD_eq_getElem _ _ hlen]
  simp [subdivide]

theorem durTotal_range (s D : ℚ) (l dep : ℕ) (n : ℕ) :
    (((List.range n).map (subChild s D l dep)).map (fun m => m.stop - m.start)).sum =
      D * cumDur l n / 120 := by
  induction n with
  | zero => simp [cumDur]
  | succ n ih =>
      rw [List.range_succ]
      simp only [List.map_append, List.sum_append, List.map_cons, List.map_nil,
        List.sum_cons, List.sum_nil]
      rw [ih]
      show D * cumDur l n / 120 + ((subChild s D l dep n).stop - (subChild s D l dep n).start + 0) =
        D * cumDur l (n + 1) / 120
      simp only [subChild]
      show D * cumDur l n / 120 +
          (s + D * cumDur l (n + 1) / 120 - (s + D * cumDur l n / 120) + 0) =
        D * cumDur l (n + 1) / 120
      ring

theorem durTotal_subdivide (s D : ℚ) (l dep : ℕ) : durTotal (subdivide s D l dep) = D := by
  unfold durTotal subdivide
  rw [durTotal_range, cumDur_cycle]
  norm_num

theorem subdivide_contiguous (s D : ℚ) (l dep : ℕ) : Contiguous (subdivide s D l dep) := by
  intro i hi
  rw [subdivide_length] at hi
  rw [subdivide_getD s D l dep (by omega), subdivide_getD s D l dep (by omega)]
  rfl

theorem subdivide_noOverlap (s D : ℚ) (l dep : ℕ) (hD : 0 ≤ D) :
    NoOverlap (subdivide s D l dep) := by
  intro i j hij hj
  rw [subdivide_length] at hj
  rw [subdivide_getD s D l dep (by omega), subdivide_getD s D l dep (by omega)]
  show s + D * cumDur l (i + 1) / 120 ≤ s + D * cumDur l j / 120
  have hc : cumDur l (i + 1) ≤ cumDur l j := cumDur_mono l (by omega)
  have hmul : D * cumDur l (i + 1) ≤ D * cumDur l j := mul_le_mul_of_nonneg_left hc hD
  linarith

theorem subdivideNode_first_start (n : PeriodNode) :
    ((subdivideNode n).getD 0 default).start = n.start := by
  rw [subdivideNode, subdivide_getD _ _ _ _ (by norm_num)]
  show n.start + (n.stop - n.start) * cumDur n.lord 0 / 120 = n.start
  show n.start + (n.stop - n.start) * 0 / 120 = n.start
  ring

theorem subdivideNode_last_stop (n : PeriodNode) :
    ((subdivideNode n).getD 8 default).stop = n.stop := by
  rw [subdivideNode, subdivide_getD _ _ _ _ (by norm_num)]
  show n.start + (n.stop - n.start) * cumDur n.lord 9 / 120 = n.stop
  rw [cumDur_cycle]
  ring

/-- C1: for every birth input the depth-0 planetary-period sequence tiles
exactly — its 9 children have durations summing to exactly 120 units,
consecutive children are contiguous and no two overlap — and the children
of every subdivided PeriodNode tile its own [start, stop) span the same
way: first child starts at the node start, last child ends at the node
stop, durations sum to the full span, contiguous, no overlap. -/
theorem period_tiling_C1 :
    (∀ birth lon : ℚ, 0 ≤ lon → lon < 360 →
      (depth0Sequence birth lon).length = 9 ∧
      durTotal (depth0Sequence birth lon) = 120 ∧
      Contiguous (depth0Sequence birth lon) ∧
      NoOverlap (depth0Sequence birth lon)) ∧
    (∀ n : PeriodNode, n.start ≤ n.stop →
      (subdivideNode n).length = 9 ∧
      durTotal (subdivideNode n) = n.stop - n.start ∧
      ((subdivideNode n).getD 0 default).start = n.start ∧
      ((subdivideNode n).getD 8 default).stop = n.stop ∧
      Contiguous (subdivideNode n) ∧
      NoOverlap (subdivideNode n)) := by
  constructor
  · intro birth lon _ _
    refine ⟨subdivide_length _ _ _ _, ?_, subdivide_contiguous _ _ _ _, ?_⟩
    · rw [depth0Sequence, durTotal_subdivide]
    · exact subdivide_noOverlap _ _ _ _ (by norm_num)
  · intro n hn
    refine ⟨subdivide_length _ _ _ _, ?_, subdivideNode_first_start n,
      subdivideNode_last_stop n, subdivide_contiguous _ _ _ _, ?_⟩
    · rw [subdivideNode, durTotal_subdivide]
    · exact subdivide_noOverlap _ _ _ _ (by linarith)

/-- Witness for C1 at a concrete birth longitude and a concrete node. -/
theorem period_tiling_C1_witness :
    ((0 : ℚ) ≤ 50 ∧ (50 : ℚ) < 360 ∧ durTotal (depth0Sequence 0 50) = 120) ∧
    ((PeriodNode.mk 3 0 120 0).start ≤ (PeriodNode.mk 3 0 120 0).stop ∧
      durTotal (subdivideNode (PeriodNode.mk 3 0 120 0)) =
        (PeriodNode.mk 3 0 120 0).stop - (PeriodNode.mk 3 0 120 0).start) :=
  ⟨⟨by norm_num, by norm_num,
      (period_tiling_C1.1 0 50 (by norm_num) (by norm_num)).2.1⟩,
    ⟨by norm_num, (period_tiling_C1.2 (PeriodNode.mk 3 0 120 0) (by norm_num)).2.1⟩⟩

theorem subdivide_headI (s D : ℚ) (l dep : ℕ) :
    (subdivide s D l dep).headI = subChild s D l dep 0 := rfl

theorem nakshatraIndex_1420 : nakshatraIndex (43 / 3) = 1 := by
  unfold nakshatraIndex nakshatraSpan
  rw [show ((43 : ℚ) / 3) / (40 / 3) = 43 / 40 by norm_num]
  rw [Int.floor_eq_iff]
  norm_num

theorem nakshatraLord_1420 : nakshatraLord (43 / 3) = 1 := by
  rw [nakshatraLord, nakshatraIndex_1420]
  rfl

theorem elapsedFraction_1420 : elapsedFraction (43 / 3) = 3 / 40 := by
  rw [elapsedFraction, nakshatraIndex_1420, nakshatraSpan]
  norm_num

/-- C2: the starting depth-0 lord is the one pre-assigned to the birth
nakshatra by nakshatra index mod 9 into the fixed sequence, and the first
depth-0 period's exposed start is the birth instant minus the elapsed
fraction of the nakshatra arc times that lord's full duration; at a birth
Moon longitude of 14 degrees 20 minutes Aries the elapsed fraction is
3/40 and the first child's remaining duration is 37/40 of its lord's full
duration, within 0.01 of 93 percent. -/
theorem first_period_anchor_C2 (birth lon : ℚ) (_h0 : 0 ≤ lon) (_h1 : lon < 360) :
    ((depth0Sequence birth lon).headI.lord = nakshatraLord lon ∧
      nakshatraLord lon = (nakshatraIndex lon).toNat % 9 ∧
      (depth0Sequence birth lon).headI.start =
        birth - elapsedFraction lon * seqDur (nakshatraLord lon)) ∧
    (elapsedFraction (43 / 3) = 3 / 40 ∧
      (depth0Sequence birth (43 / 3)).headI.stop - birth =
        37 / 40 * seqDur (nakshatraLord (43 / 3)) ∧
      |(37 : ℚ) / 40 - 93 / 100| ≤ 1 / 100) := by
  refine ⟨⟨?_, rfl, ?_⟩, elapsedFraction_1420, ?_, by rw [abs_le]; constructor <;> norm_num⟩
  · rw [depth0Sequence, subdivide_headI]
    show (nakshatraLord lon + 0) % 9 = nakshatraLord lon
    rw [nakshatraLord]
    omega
  · rw [depth0Sequence, subdivide_headI]
    show dashaCycleStart birth lon + 120 * cumDur (nakshatraLord lon) 0 / 120 =
      birth - elapsedFraction lon * seqDur (nakshatraLord lon)
    rw [dashaCycleStart]
    show birth - elapsedFraction lon * seqDur (nakshatraLord lon) + 120 * 0 / 120 =
      birth - elapsedFraction lon * seqDur (nakshatraLord lon)
    ring
  · rw [depth0Sequence, subdivide_headI, dashaCycleStart, elapsedFraction_1420,
      nakshatraLord_1420]
    show birth - 3 / 40 * seqDur 1 + 120 * cumDur 1 1 / 120 - birth = 37 / 40 * seqDur 1
    show birth - 3 / 40 * seqDur 1 + 120 * (0 + seqDur (1 + 0)) / 120 - birth =
      37 / 40 * seqDur 1
    norm_num [seqDur, seqDurs]
    ring_nf

/-- Witness for C2 at birth instant 0 and the scenario longitude. -/
theorem first_period_anchor_C2_witness :
    (0 : ℚ) ≤ 43 / 3 ∧ (43 : ℚ) / 3 < 360 ∧
      (depth0Sequence 0 (43 / 3)).headI.lord = nakshatraLord (43 / 3) ∧
      elapsedFraction (43 / 3) = 3 / 40 :=
  ⟨by norm_num, by norm_num,
    (first_period_anchor_C2 0 (43 / 3) (by norm_num) (by norm_num)).1.1,
    (first_period_anchor_C2 0 (43 / 3) (by norm_num) (by norm_num)).2.1⟩

/-- C3: the upcoming-windows query always includes the current depth-1
node, with its reported end truncated to now + months when its true end
exceeds the window; it includes the next depth-1 node exactly when that
node starts before now + months (truncated at the window boundary as
well); and it never returns more than 2 windows. -/
theorem upcoming_windows_C3 (cur next : PeriodNode) (now months : ℚ)
    (_hadj : next.start = cur.stop) (_hin1 : cur.start ≤ now) (_hin2 : now < cur.stop) :
    (upcomingWindows cur next now months).length ≤ 2 ∧
    (upcomingWindows cur next now months).headI =
      { lord := cur.lord, start := cur.start, stop := min cur.stop (now + months) } ∧
    (now + months < cur.stop →
      (upcomingWindows cur next now months).headI.stop = now + months) ∧
    ((upcomingWindows cur next now months).length = 2 ↔ next.start < now + months) ∧
    (next.start < now + months →
      (upcomingWindows cur next now months).getD 1 default =
        { lord := next.lord, start := next.start, stop := min next.stop (now + months) }) := by
  by_cases h : next.start < now + months
  · refine ⟨?_, rfl, ?_, ?_, ?_⟩
    · simp [upcomingWindows, h]
    · intro hlt
      show min cur.stop (now + months) = now + months
      exact min_eq_right (le_of_lt hlt)
    · simp [upcomingWindows, h]
    · intro _
      simp [upcomingWindows, h]
  · refine ⟨?_, rfl, ?_, ?_, ?_⟩
    · simp [upcomingWindows, h]
    · intro hlt
      show min cur.stop (now + months) = now + months
      exact min_eq_right (le_of_lt hlt)
    · simp [upcomingWindows, h]
    · intro hc
      exact absurd hc h

/-- Witness for C3 at a concrete pair of adjacent depth-1 nodes. -/
theorem upcoming_windows_C3_witness :
    (PeriodNode.mk 1 10 30 1).start = (PeriodNode.mk 0 0 10 1).stop ∧
    (0 : ℚ) ≤ 5 ∧ (5 : ℚ) < 10 ∧
    (upcomingWindows (PeriodNode.mk 0 0 10 1) (PeriodNode.mk 1 10 30 1) 5 12).length ≤ 2 :=
  ⟨rfl, by norm_num, by norm_num,
    (upcoming_windows_C3 (PeriodNode.mk 0 0 10 1) (PeriodNode.mk 1 10 30 1) 5 12
      rfl (by norm_num) (by norm_num)).1⟩

theorem normalizeDegrees_eq_self {lon : ℚ} (h0 : 0 ≤ lon) (h1 : lon < 360) :
    normalizeDegrees lon = lon := by
  unfold normalizeDegrees
  have hf : ⌊lon / 360⌋ = 0 := by
    rw [Int.floor_eq_iff]
    constructor
    · push_cast
      positivity
    · push_cast
      rw [div_lt_iff₀ (by norm_num : (0 : ℚ) < 360)]
      linarith
  rw [hf]
  ring

theorem signOf_lt_12 (lon : ℚ) : signOf lon < 12 := by
  unfold signOf normalizeDegrees
  have h1 : (⌊lon / 360⌋ : ℚ) ≤ lon / 360 := Int.floor_le _
  have h2 : lon / 360 < ⌊lon / 360⌋ + 1 := Int.lt_floor_add_one _
  have hub : lon - 360 * ⌊lon / 360⌋ < 360 := by
    have := mul_lt_mul_of_pos_left h2 (by norm_num : (0 : ℚ) < 360)
    have h360 : 360 * (lon / 360) = lon := by ring
    nlinarith
  have : ⌊(lon - 360 * ⌊lon / 360⌋) / 30⌋ < 12 := by
    apply Int.floor_lt.mpr
    push_cast
    rw [div_lt_iff₀ (by norm_num : (0 : ℚ) < 30)]
    linarith
  omega

theorem signOf_nonneg_lb (lon : ℚ) : 0 ≤ normalizeDegrees lon := by
  unfold normalizeDegrees
  have h1 : (⌊lon / 360⌋ : ℚ) ≤ lon / 360 := Int.floor_le _
  nlinarith [h1]

/-- C4: every body is assigned the house
`((sign_index(body) - sign_index(asc) + 12) mod 12) + 1` computed from
sign indices `floor(longitude / 30)` over normalized longitudes in
[0, 360), and a longitude exactly on a sign boundary belongs to the
higher-index sign. -/
theorem house_mapping_C4 :
    (∀ (c : Chart) (b : Body),
        (chartHouse c b : ℤ) =
          ((signOf (c.bodyLon b) : ℤ) - signOf c.asc + 12) % 12 + 1) ∧
    (∀ lon : ℚ, 0 ≤ lon → lon < 360 → (signOf lon : ℤ) = ⌊lon / 30⌋) ∧
    (∀ k : ℕ, k < 12 → signOf (30 * k) = k) := by
  refine ⟨?_, ?_, ?_⟩
  · intro c b
    unfold chartHouse houseOf
    have hB : signOf (c.bodyLon b) < 12 := signOf_lt_12 _
    have hA : signOf c.asc < 12 := signOf_lt_12 _
    omega
  · intro lon h0 h1
    unfold signOf
    rw [normalizeDegrees_eq_self h0 h1]
    have : 0 ≤ ⌊lon / 30⌋ := by
      apply Int.floor_nonneg.mpr
      positivity
    omega
  · intro k hk
    have h0 : (0 : ℚ) ≤ 30 * k := by positivity
    have h1 : (30 : ℚ) * k < 360 := by
      have : (k : ℚ) < 12 := by exact_mod_cast hk
      linarith
    have := normalizeDegrees_eq_self h0 h1
    unfold signOf
    rw [this]
    rw [show (30 : ℚ) * k / 30 = (k : ℚ) by ring]
    rw [Int.floor_natCast]
    exact Int.toNat_natCast k

/-- Witness for C4 at longitude 95 (Cancer) with ascendant 10 (Aries) and
at the boundary longitude 60. -/
theorem house_mapping_C4_witness :
    ((0 : ℚ) ≤ 95 ∧ (95 : ℚ) < 360 ∧ (signOf 95 : ℤ) = ⌊(95 : ℚ) / 30⌋) ∧
    (2 < 12 ∧ signOf (30 * (2 : ℕ)) = 2) :=
  ⟨⟨by norm_num, by norm_num, house_mapping_C4.2.1 95 (by norm_num) (by norm_num)⟩,
    ⟨by norm_num, house_mapping_C4.2.2 2 (by norm_num)⟩⟩

theorem clamp01_nonneg (x : ℚ) : 0 ≤ clamp01 x := le_max_left 0 _

theorem clamp01_le_one (x : ℚ) : clamp01 x ≤ 1 :=
  max_le (by norm_num) (min_le_left 1 x)

/-- C5: the Bhava Bala score of a house is the clamp to [0, 1] of 0.50
plus the independently evaluated sum of the four adjustments (+0.15 lord
dignity at least Friend and not combust, +0.10 lord receives a Jupiter or
Venus aspect edge, -0.10 lord dignity at most Enemy or combust, -0.10 at
least 3 of the four malefics occupy the house), and consequently every
house score lies in [0, 1]. -/
theorem bhava_bala_C5 (tier : ℤ) (combust asp : Bool) (maleficCount : ℕ) :
    bhavaBala tier combust asp maleficCount =
      clamp01 (1 / 2 +
        (if 2 ≤ tier ∧ combust = false then (15 : ℚ) / 100 else 0) +
        (if asp then (1 : ℚ) / 10 else 0) +
        (if tier ≤ 0 ∨ combust = true then -((1 : ℚ) / 10) else 0) +
        (if 3 ≤ maleficCount then -((1 : ℚ) / 10) else 0)) ∧
    0 ≤ bhavaBala tier combust asp maleficCount ∧
    bhavaBala tier combust asp maleficCount ≤ 1 := by
  refine ⟨rfl, clamp01_nonneg _, clamp01_le_one _⟩

/-- C6: a body is combust exactly when its circular angular distance
min(d, 360 - d) to the Sun is within its fixed orb (Mercury 12, Venus 10,
Mars 17, Jupiter 11, Saturn 15, Moon 12), and for a fixed body combustion
is monotone: decreasing the angular distance can only turn the flag from
false to true, never the reverse. -/
theorem combustion_C6 :
    (∀ (b : Body) (lon sun : ℚ),
        isCombust b lon sun = true ↔
          ∃ orb, combustOrb b = some orb ∧ angularDistance lon sun ≤ orb) ∧
    (combustOrb .Mercury = some 12 ∧ combustOrb .Venus = some 10 ∧
      combustOrb .Mars = some 17 ∧ combustOrb .Jupiter = some 11 ∧
      combustOrb .Saturn = some 15 ∧ combustOrb .Moon = some 12) ∧
    (∀ (b : Body) (lon sun : ℚ),
        isCombust b lon sun = combustAt b (angularDistance lon sun)) ∧
    (∀ (b : Body) (dist distNearer : ℚ), distNearer ≤ dist →
        combustAt b dist = true → combustAt b distNearer = true) := by
  refine ⟨?_, ⟨rfl, rfl, rfl, rfl, rfl, rfl⟩, fun _ _ _ => rfl, ?_⟩
  · intro b lon sun
    cases b <;> simp [isCombust, combustAt, combustOrb]
  · intro b dist distNearer hle h
    cases b <;> simp [combustAt, combustOrb] at h ⊢ <;> linarith

/-- Witness for C6: Mercury at distance 5 is combust because it is
combust at distance 11. -/
theorem combustion_C6_witness :
    (5 : ℚ) ≤ 11 ∧ combustAt Body.Mercury 11 = true ∧
      combustAt Body.Mercury 5 = true :=
  ⟨by norm_num, by simp [combustAt, combustOrb]; norm_num,
    combustion_C6.2.2.2 Body.Mercury 11 5 (by norm_num)
      (by simp [combustAt, combustOrb]; norm_num)⟩

/-- C7: the cyclic-affliction phase is a function of Saturn's house-offset
from the natal Moon sign alone — offset 12 is rising, 1 is peak, 2 is
setting, everything else is none. -/
theorem sade_sati_C7 :
    (∀ t u : TransitSnapshot, t.saturnFromMoon = u.saturnFromMoon →
        snapshotPhase t = snapshotPhase u) ∧
    sadeSatiPhase 12 = SadePhase.rising ∧
    sadeSatiPhase 1 = SadePhase.peak ∧
    sadeSatiPhase 2 = SadePhase.setting ∧
    (∀ o : ℕ, o ≠ 12 → o ≠ 1 → o ≠ 2 → sadeSatiPhase o = SadePhase.none) := by
  refine ⟨?_, rfl, rfl, rfl, ?_⟩
  · intro t u h
    unfold snapshotPhase
    rw [h]
  · intro o h12 h1 h2
    simp [sadeSatiPhase, h12, h1, h2]

/-- Witness for C7: two snapshots sharing Saturn-from-Moon offset 1 get
the same phase, and offset 7 reports none. -/
theorem sade_sati_C7_witness :
    snapshotPhase (TransitSnapshot.mk 1 2 3 4 5 6 7 8) =
      snapshotPhase (TransitSnapshot.mk 1 9 10 11 12 1 2 3) ∧
    sadeSatiPhase 7 = SadePhase.none :=
  ⟨sade_sati_C7.1 (TransitSnapshot.mk 1 2 3 4 5 6 7 8)
      (TransitSnapshot.mk 1 9 10 11 12 1 2 3) rfl,
    sade_sati_C7.2.2.2.2 7 (by norm_num) (by norm_num) (by norm_num)⟩

/-- C8: the sensitivity analysis produces a report exactly when the
birth-time uncertainty is positive and both the minus-perturbed and the
plus-perturbed pipeline runs succeeded; if either perturbed run fails the
whole report is omitted, never partially reported. -/
theorem sensitivity_gate_C8 (u : ℚ) (base : PipelineResult)
    (minusRun plusRun : Option PipelineResult) :
    ((sensitivityReport u base minusRun plusRun).isSome = true ↔
      0 < u ∧ minusRun.isSome = true ∧ plusRun.isSome = true) ∧
    (minusRun = none → sensitivityReport u base minusRun plusRun = none) ∧
    (plusRun = none → sensitivityReport u base minusRun plusRun = none) := by
  by_cases hu : u ≤ 0
  · cases minusRun <;> cases plusRun <;> simp [sensitivityReport, hu, not_lt.mpr hu]
  · have hu2 : 0 < u := lt_of_not_le hu
    cases minusRun <;> cases plusRun <;> simp [sensitivityReport, hu, hu2]

/-- Witness for C8 at uncertainty 5 with a missing minus run. -/
theorem sensitivity_gate_C8_witness :
    sensitivityReport 5 (PipelineResult.mk 0 1 2 3 4) none
      (some (PipelineResult.mk 0 1 2 3 4)) = none :=
  (sensitivity_gate_C8 5 (PipelineResult.mk 0 1 2 3 4) none
    (some (PipelineResult.mk 0 1 2 3 4))).2.1 rfl

set_option maxHeartbeats 1000000 in
theorem handleSubmit_send_inv (tok : Bool) (f : ProfileFormState)
    (latV lonV altV : Option ℚ) (uncV : Option ℤ) (lat lon alt : ℚ) (unc : ℤ)
    (h : handleSubmit tok f latV lonV altV uncV = .send lat lon alt unc) :
    latV = some lat ∧ lonV = some lon ∧ altV = some alt ∧ uncV = some unc ∧
      -90 ≤ lat ∧ lat ≤ 90 ∧ -180 ≤ lon ∧ lon ≤ 180 ∧ 0 ≤ unc ∧ unc ≤ 10 := by
  unfold handleSubmit at h
  repeat' split at h
  all_goals try exact SubmitOutcome.noConfusion h
  injection h with h1 h2 h3 h4
  subst h1
  subst h2
  subst h3
  subst h4
  push_neg at *
  casesm* _ ∧ _
  refine ⟨rfl, rfl, rfl, rfl, ?_, ?_, ?_, ?_, ?_, ?_⟩ <;> assumption

/-- C9: the profile form submit sends the create-profile request only for
inputs whose latitude lies in [-90, 90], longitude in [-180, 180] and
birth-time uncertainty in [0, 10] minutes; an input outside any of those
bounds is rejected synchronously (a toast error, no request, no retry). -/
theorem input_validation_C9 :
    (∀ (tok : Bool) (f : ProfileFormState) (latV lonV altV : Option ℚ) (uncV : Option ℤ)
        (lat lon alt : ℚ) (unc : ℤ),
        handleSubmit tok f latV lonV altV uncV = .send lat lon alt unc →
        -90 ≤ lat ∧ lat ≤ 90 ∧ -180 ≤ lon ∧ lon ≤ 180 ∧ 0 ≤ unc ∧ unc ≤ 10) ∧
    (∀ (tok : Bool) (f : ProfileFormState) (lonV altV : Option ℚ) (uncV : Option ℤ)
        (lat : ℚ), lat < -90 ∨ 90 < lat →
        ∀ (a b c : ℚ) (d : ℤ), handleSubmit tok f (some lat) lonV altV uncV ≠ .send a b c d) ∧
    (∀ (tok : Bool) (f : ProfileFormState) (latV altV : Option ℚ) (uncV : Option ℤ)
        (lon : ℚ), lon < -180 ∨ 180 < lon →
        ∀ (a b c : ℚ) (d : ℤ), handleSubmit tok f latV (some lon) altV uncV ≠ .send a b c d) ∧
    (∀ (tok : Bool) (f : ProfileFormState) (latV lonV altV : Option ℚ)
        (unc : ℤ), unc < 0 ∨ 10 < unc →
        ∀ (a b c : ℚ) (d : ℤ), handleSubmit tok f latV lonV altV (some unc) ≠ .send a b c d) := by
  refine ⟨?_, ?_, ?_, ?_⟩
  · intro tok f latV lonV altV uncV lat lon alt unc h
    exact (handleSubmit_send_inv tok f latV lonV altV uncV lat lon alt unc h).2.2.2.2
  · intro tok f lonV altV uncV lat hbad a b c d h
    obtain ⟨hl, _, _, _, h90a, h90b, _⟩ := handleSubmit_send_inv _ _ _ _ _ _ _ _ _ _ h
    obtain rfl : lat = a := Option.some_injective _ hl
    rcases hbad with hb | hb <;> linarith
  · intro tok f latV altV uncV lon hbad a b c d h
    obtain ⟨_, hl, _, _, _, _, h180a, h180b, _⟩ := handleSubmit_send_inv _ _ _ _ _ _ _ _ _ _ h
    obtain rfl : lon = b := Option.some_injective _ hl
    rcases hbad with hb | hb <;> linarith
  · intro tok f latV lonV altV unc hbad a b c d h
    obtain ⟨_, _, _, hl, _, _, _, _, h10a, h10b⟩ := handleSubmit_send_inv _ _ _ _ _ _ _ _ _ _ h
    obtain rfl : unc = d := Option.some_injective _ hl
    rcases hbad with hb | hb <;> omega

/-- Witness for C9: a concrete in-bounds submission is sent and satisfies
the bounds, and a concrete out-of-range uncertainty is never sent. -/
theorem input_validation_C9_witness :
    (handleSubmit true
        (ProfileFormState.mk "Ada" "female" "1990-01-01" "12:00" "Asia/Kolkata"
          "Mumbai" "19.07" "72.87" "10" "5" "Lahiri" "WholeSign")
        (some (19 : ℚ)) (some (72 : ℚ)) (some (10 : ℚ)) (some (5 : ℤ)) =
      SubmitOutcome.send 19 72 10 5 ∧
      (0 : ℤ) ≤ 5 ∧ (5 : ℤ) ≤ 10) ∧
    ((11 : ℤ) > 10 ∧
      handleSubmit true
        (ProfileFormState.mk "Ada" "female" "1990-01-01" "12:00" "Asia/Kolkata"
          "Mumbai" "19.07" "72.87" "10" "11" "Lahiri" "WholeSign")
        (some (19 : ℚ)) (some (72 : ℚ)) (some (10 : ℚ)) (some (11 : ℤ)) ≠
      SubmitOutcome.send 19 72 10 11) :=
  ⟨⟨by decide,
    (input_validation_C9.1 true
      (ProfileFormState.mk "Ada" "female" "1990-01-01" "12:00" "Asia/Kolkata"
        "Mumbai" "19.07" "72.87" "10" "5" "Lahiri" "WholeSign")
      (some 19) (some 72) (some 10) (some 5) 19 72 10 5 (by decide)).2.2.2.2⟩,
    ⟨by norm_num,
      input_validation_C9.2.2.2 true
        (ProfileFormState.mk "Ada" "female" "1990-01-01" "12:00" "Asia/Kolkata"
          "Mumbai" "19.07" "72.87" "10" "11" "Lahiri" "WholeSign")
        (some 19) (some 72) (some 10) 11 (by norm_num) 19 72 10 11⟩⟩

/-- C10: the debounced geocoding effect fires only when the place field is
nonempty and both the latitude and longitude fields are empty, and a
successful geocode rewrites only the lat and lon fields of the form
state, leaving every other field unchanged. -/
theorem geocode_frame_C10 :
    (∀ f : ProfileFormState,
        geocodeEffectCondition f = true ↔ f.place ≠ "" ∧ f.lat = "" ∧ f.lon = "") ∧
    (∀ (f : ProfileFormState) (newLat newLon : String),
        (geocodeSetCoords f newLat newLon).lat = newLat ∧
        (geocodeSetCoords f newLat newLon).lon = newLon ∧
        (geocodeSetCoords f newLat newLon).name = f.name ∧
        (geocodeSetCoords f newLat newLon).gender = f.gender ∧
        (geocodeSetCoords f newLat newLon).dob = f.dob ∧
        (geocodeSetCoords f newLat newLon).tob = f.tob ∧
        (geocodeSetCoords f newLat newLon).tz = f.tz ∧
        (geocodeSetCoords f newLat newLon).place = f.place ∧
        (geocodeSetCoords f newLat newLon).altitude_m = f.altitude_m ∧
        (geocodeSetCoords f newLat newLon).uncertainty_minutes = f.uncertainty_minutes ∧
        (geocodeSetCoords f newLat newLon).ayanamsa = f.ayanamsa ∧
        (geocodeSetCoords f newLat newLon).house_system = f.house_system) := by
  constructor
  · intro f
    exact decide_eq_true_iff
  · intro f newLat newLon
    exact ⟨rfl, rfl, rfl, rfl, rfl, rfl, rfl, rfl, rfl, rfl, rfl, rfl⟩
